import Mathlib

/-!
Verification development for the backend-dispatch and provenance-index layer
of a text-to-image generation service (source: src/models/generate.py).

The Python source is shallowly embedded: each driver function becomes a Lean
function over explicit inputs (the provider response, an environment of
collaborator behaviours, a supply of fresh identifiers, a randomness draw),
and its external effects (object-store writes, metadata-write attempts) are
returned as explicit traces.
-/

namespace MesopArena

/-- Python `pat in s` (substring containment): true when some contiguous
slice of s equals pat. -/
def hasSubstr (s pat : String) : Bool :=
  (List.range (s.data.length + 1)).any
    (fun i => (s.data.drop i).take pat.data.length == pat.data)

/-- Python `s.startswith(p)`. -/
def pyStartsWith (s p : String) : Bool :=
  s.data.take p.data.length == p.data

/-- The stem component of CPython `posixpath.splitext`: the location up to the
last dot of its basename, provided the basename has a non-dot character
before that dot (leading dots of a basename never start an extension);
otherwise the whole string. -/
def splitextStem (s : String) : String :=
  let rev := s.data.reverse
  let base := rev.takeWhile (fun c => c != '/')
  match base.findIdx? (fun c => c == '.') with
  | none => s
  | some j =>
    if (base.drop (j + 1)).any (fun c => c != '.') then
      String.mk (s.data.take (s.data.length - (j + 1)))
    else
      s

/-- One document of the Firestore image collection, as read by study_fetch:
the stored artifact location and the two fields the query filters on. -/
structure ProvenanceRecord where
  gcsuri : String
  prompt : String
  model : String
deriving DecidableEq, Repr

/-- The per-document normalization loop body of study_fetch (lines 185-192):
if "stablediffusion" does not occur in the location, strip the extension;
otherwise strip it only when the *whole location string* starts with
"20250328_", else keep the location verbatim. -/
def normalizeLoc (gs_uri : String) : String :=
  if !(hasSubstr gs_uri "stablediffusion") then
    splitextStem gs_uri
  else
    if pyStartsWith gs_uri "20250328_" then
      splitextStem gs_uri
    else
      gs_uri

/-- The normalized matching set built by study_fetch: server-side equality
filter on prompt and model, then the normalization of each location, in
document order. -/
def matchingDocs (records : List ProvenanceRecord) (model_name prompt : String) :
    List String :=
  (records.filter (fun r => r.prompt == prompt && r.model == model_name)).map
    (fun r => normalizeLoc r.gcsuri)

/-- Failure of the provenance query. NoMatchError models the error
`random.sample` raises when the matching set is empty (the name the spec gives to
that failure). -/
inductive FetchError where
  | NoMatchError
deriving DecidableEq, Repr

/-- `random.sample(docs, 1)`: fails on an empty population, otherwise returns
the one element selected by the uniform randomness draw r (reduced modulo the
population size). -/
def randomSampleOne (docs : List String) (r : Nat) :
    Except FetchError (List String) :=
  if h : docs.length = 0 then
    .error .NoMatchError
  else
    .ok [docs.get ⟨r % docs.length, Nat.mod_lt _ (Nat.pos_of_ne_zero h)⟩]

/-- study_fetch (lines 176-193): filter the records on (prompt, model),
normalize every matching location, and sample one uniformly at random. -/
def study_fetch (records : List ProvenanceRecord) (model_name prompt : String)
    (r : Nat) : Except FetchError (List String) :=
  randomSampleOne (matchingDocs records model_name prompt) r

/-- One write issued to the object store adapter: the arguments of
store_to_gcs(folder, filename, content type, data, decode flag). -/
structure StoreWrite where
  folder : String
  filename : String
  contentType : String
  data : String
  decode : Bool
deriving DecidableEq, Repr

/-- One attempted provenance write: the arguments of
add_image_metadata(gcs_uri, prompt, model) together with its outcome
(a raised exception is carried as an error string). -/
structure MetaAttempt where
  gcs_uri : String
  prompt : String
  model : String
  result : Except String Unit
deriving Repr

/-- The collaborators of images_from_flux: the object store (returns the
bucket path store_to_gcs yields), the metadata store (success or a raised
exception per add_image_metadata call), and the uuid4 supply (one fresh
identifier per loop iteration). -/
structure FluxEnv where
  store : String → String → String → String → Bool → String
  metaResult : String → String → String → Except String Unit
  uuid : Nat → String

/-- The provider request images_from_flux builds (lines 71-76): one instance
holding the prompt, fixed parameters; the aspect ratio argument is
discarded (line 61). -/
structure FluxRequest where
  instanceText : String
  height : Nat
  width : Nat
  num_inference_steps : Nat
deriving DecidableEq, Repr

/-- Request construction in images_from_flux; aspectRatio is unused
(`_ = aspect_ratio`). -/
def flux_request (model_name prompt aspectRatio : String) : FluxRequest :=
  let _ := model_name
  let _ := aspectRatio
  ⟨prompt, 1024, 1024, 4⟩

/-- The per-image loop of images_from_flux (lines 97-117), iterating over the
provider predictions with their enumeration index: store each payload under a
fresh "uuid.png" filename, prepend "gs://" to the returned path, append the
uri to the output, then attempt the provenance write, whose failure is caught
and only logged. Returns (arena_output, store writes, metadata attempts). -/
def fluxLoop (env : FluxEnv) (model_name prompt : String) (idx : Nat) :
    List String → List String × List StoreWrite × List MetaAttempt
  | [] => ([], [], [])
  | img :: rest =>
    let filename := env.uuid idx ++ ".png"
    let stored := env.store "flux1" filename "image/png" img true
    let gcs_uri := "gs://" ++ stored
    let metaRes := env.metaResult gcs_uri prompt model_name
    let tail := fluxLoop env model_name prompt (idx + 1) rest
    (gcs_uri :: tail.1,
     ⟨"flux1", filename, "image/png", img, true⟩ :: tail.2.1,
     ⟨gcs_uri, prompt, model_name, metaRes⟩ :: tail.2.2)

/-- images_from_flux (lines 56-118): given the predictions of the provider (the
base64 payloads extracted on lines 91-95), run the per-image pipeline and
return the list of gcs uris plus the effect traces. -/
def images_from_flux (env : FluxEnv) (model_name prompt aspectRatio : String)
    (predictions : List String) :
    List String × List StoreWrite × List MetaAttempt :=
  let _ := flux_request model_name prompt aspectRatio
  fluxLoop env model_name prompt 0 predictions

/-- One image of the Imagen provider response: its durable-store reference
(img._gcs_uri) and its base64 rendering (only ever logged). -/
structure ImagenImage where
  gcs_uri : String
  base64 : String
deriving DecidableEq, Repr

/-- The collaborator of images_from_imagen: the outcome at the metadata store per
add_image_metadata call. -/
structure ImagenEnv where
  metaResult : String → String → String → Except String Unit

/-- The per-image loop of images_from_imagen (lines 156-172): append each
provider-issued gcs uri of each image unchanged, then attempt the provenance
write, whose failure is caught and only logged. Returns
(arena_output, metadata attempts). -/
def imagenLoop (env : ImagenEnv) (model_name prompt : String) :
    List ImagenImage → List String × List MetaAttempt
  | [] => ([], [])
  | img :: rest =>
    let metaRes := env.metaResult img.gcs_uri prompt model_name
    let tail := imagenLoop env model_name prompt rest
    (img.gcs_uri :: tail.1,
     ⟨img.gcs_uri, prompt, model_name, metaRes⟩ :: tail.2)

/-- images_from_imagen (lines 120-174): given the response images of the provider,
return their gcs uris in order plus the metadata-attempt trace. No object
store write occurs (the provider persisted the images itself). -/
def images_from_imagen (env : ImagenEnv) (model_name prompt aspectRatio : String)
    (images : List ImagenImage) : List String × List MetaAttempt :=
  let _ := aspectRatio
  imagenLoop env model_name prompt images

/-- Failure of driver dispatch. -/
inductive DispatchError where
  | UnknownModelError
deriving DecidableEq, Repr

/-- A registered backend driver. -/
inductive DriverKind where
  | flux
  | imagen
deriving DecidableEq, Repr

/-- Modelled from the spec: driver selection of the Dispatch Facade is not in
src/models/generate.py; per spec section 4.2 it selects the Backend Driver by
exact match on the model identifier against a static registry and fails with
UnknownModelError on an unknown identifier. -/
def dispatch (registry : List (String × DriverKind)) (model_name : String) :
    Except DispatchError DriverKind :=
  match registry.find? (fun p => p.1 == model_name) with
  | some p => .ok p.2
  | none => .error .UnknownModelError

/-- A concrete object-store behaviour: store_to_gcs returns the bucket path
of the stored object. -/
def fluxStoreFn : String → String → String → String → Bool → String :=
  fun folder filename _ _ _ => "bucket/" ++ folder ++ "/" ++ filename

/-- A flux environment whose metadata writes all succeed. -/
def fluxEnvOk : FluxEnv :=
  ⟨fluxStoreFn, fun _ _ _ => .ok (), fun n => "uuid" ++ toString n⟩

/-- A flux environment identical to fluxEnvOk except that every metadata
write raises. -/
def fluxEnvFail : FluxEnv :=
  ⟨fluxStoreFn, fun _ _ _ => .error "DeadlineExceeded: firestore timeout",
   fun n => "uuid" ++ toString n⟩

/-- A flux environment whose uuid supply always yields "a". -/
def fluxEnvA : FluxEnv := ⟨fluxStoreFn, fun _ _ _ => .ok (), fun _ => "a"⟩

/-- A flux environment whose uuid supply always yields "b". -/
def fluxEnvB : FluxEnv := ⟨fluxStoreFn, fun _ _ _ => .ok (), fun _ => "b"⟩

/-- An imagen environment whose metadata writes all succeed. -/
def imagenEnvOk : ImagenEnv := ⟨fun _ _ _ => .ok ()⟩

/-- An imagen environment whose metadata writes all raise. -/
def imagenEnvFail : ImagenEnv := ⟨fun _ _ _ => .error "metadata store outage"⟩

/-- A two-record store in which both records match the query (m, p). -/
def twoRecs : List ProvenanceRecord :=
  [⟨"gs://b/a.png", "p", "m"⟩, ⟨"gs://b/b.png", "p", "m"⟩]

example : splitextStem "gs://bucket/imagen_live/abc.png" = "gs://bucket/imagen_live/abc" := by decide
example : splitextStem ".bashrc" = ".bashrc" := by decide
example : splitextStem "a.b/c" = "a.b/c" := by decide
example : splitextStem "a.b.c" = "a.b" := by decide
example : normalizeLoc "gs://bucket/stablediffusion/20250328_new.jpg" = "gs://bucket/stablediffusion/20250328_new.jpg" := by decide
example : normalizeLoc "gs://bucket/stablediffusion/old.jpg" = "gs://bucket/stablediffusion/old.jpg" := by decide
example : normalizeLoc "20250328_stablediffusion.jpg" = "20250328_stablediffusion" := by decide

/-- The arena_output of the flux loop does not depend on the metadata-store
behaviour: two environments with the same object store and uuid supply yield
the same output list. -/
theorem fluxLoop_fst_indep (env env' : FluxEnv) (m p : String)
    (hstore : env.store = env'.store) (huuid : env.uuid = env'.uuid) :
    ∀ (idx : Nat) (preds : List String),
      (fluxLoop env m p idx preds).1 = (fluxLoop env' m p idx preds).1 := by
  intro idx preds
  induction preds generalizing idx with
  | nil => rfl
  | cons img rest ih => simp [fluxLoop, hstore, huuid, ih]

/-- The arena_output of the imagen loop is the list of provider-issued gcs
uris, in order, for any metadata-store behaviour. -/
theorem imagenLoop_fst (env : ImagenEnv) (m p : String) (images : List ImagenImage) :
    (imagenLoop env m p images).1 = images.map (fun img => img.gcs_uri) := by
  induction images with
  | nil => rfl
  | cons img rest ih => simp [imagenLoop, ih]

/-- Every object-store write of the flux loop carries a filename of the form
uuid-supply value followed by ".png", for a supply index within the
range. -/
theorem fluxLoop_filename_mem (env : FluxEnv) (m p : String) :
    ∀ (idx : Nat) (preds : List String) (w : StoreWrite),
      w ∈ (fluxLoop env m p idx preds).2.1 →
      ∃ i, idx ≤ i ∧ i < idx + preds.length ∧ w.filename = env.uuid i ++ ".png" := by
  intro idx preds
  induction preds generalizing idx with
  | nil => intro w hw; exact absurd hw (List.not_mem_nil w)
  | cons img rest ih =>
    intro w hw
    simp only [fluxLoop, List.mem_cons] at hw
    rcases hw with hw | hw
    · exact ⟨idx, Nat.le_refl idx, by simp [hw], by rw [hw]⟩
    · rcases ih (idx + 1) w hw with ⟨i, hle, hlt, hfn⟩
      exact ⟨i, Nat.le_of_succ_le hle, by simpa [Nat.add_comm, Nat.add_left_comm] using hlt, hfn⟩

/-- Appending the fixed ".png" extension is injective on the stem. -/
theorem append_png_inj (a b : String) (h : a ++ ".png" = b ++ ".png") : a = b := by
  have hd : a.data ++ ".png".data = b.data ++ ".png".data := by
    simpa [String.data_append] using congrArg String.data h
  exact String.ext (List.append_cancel_right hd)

section Claims

/-- C4: for every matching provenance record whose location does not contain
"stablediffusion", study_fetch strips the file extension from the location,
and the stripped location is what enters the sampling pool. -/
theorem C4_nonlegacy_extension_stripped (records : List ProvenanceRecord)
    (model_name prompt : String) (rec : ProvenanceRecord)
    (hmem : rec ∈ records) (hp : rec.prompt = prompt) (hm : rec.model = model_name)
    (hsd : hasSubstr rec.gcsuri "stablediffusion" = false) :
    normalizeLoc rec.gcsuri = splitextStem rec.gcsuri
    ∧ normalizeLoc rec.gcsuri ∈ matchingDocs records model_name prompt := by
  constructor
  · simp [normalizeLoc, hsd]
  · exact List.mem_map_of_mem _ (List.mem_filter.mpr ⟨hmem, by simp [hp, hm]⟩)

/-- C4 witness: the example given by the spec, gs://bucket/imagen_live/abc.png is
returned as gs://bucket/imagen_live/abc. -/
theorem C4_witness :
    hasSubstr "gs://bucket/imagen_live/abc.png" "stablediffusion" = false
    ∧ normalizeLoc "gs://bucket/imagen_live/abc.png"
        = splitextStem "gs://bucket/imagen_live/abc.png"
    ∧ normalizeLoc "gs://bucket/imagen_live/abc.png"
        ∈ matchingDocs [⟨"gs://bucket/imagen_live/abc.png", "p", "m"⟩] "m" "p"
    ∧ splitextStem "gs://bucket/imagen_live/abc.png" = "gs://bucket/imagen_live/abc" := by
  have main := C4_nonlegacy_extension_stripped
    [⟨"gs://bucket/imagen_live/abc.png", "p", "m"⟩] "m" "p"
    ⟨"gs://bucket/imagen_live/abc.png", "p", "m"⟩
    (by decide) rfl rfl (by decide)
  exact ⟨by decide, main.1, main.2, by decide⟩

/-- C1 counterexample: a record at gs://bucket/stablediffusion/20250328_new.jpg
(whose FILENAME starts with 20250328_ but whose location string does not) is
returned by study_fetch unmodified, not extension-stripped as the claim
states. -/
theorem C1_counterexample :
    study_fetch [⟨"gs://bucket/stablediffusion/20250328_new.jpg", "p", "m"⟩] "m" "p" 0
      = Except.ok ["gs://bucket/stablediffusion/20250328_new.jpg"]
    ∧ ("gs://bucket/stablediffusion/20250328_new.jpg" : String)
        ≠ "gs://bucket/stablediffusion/20250328_new" := by
  exact ⟨rfl, by decide⟩

/-- C1 amended: for every matching record whose location contains
"stablediffusion", study_fetch strips the extension if and only if the WHOLE
location string begins with "20250328_"; otherwise the location enters the
sampling pool verbatim. -/
theorem C1_legacy_rule (records : List ProvenanceRecord)
    (model_name prompt : String) (rec : ProvenanceRecord)
    (hmem : rec ∈ records) (hp : rec.prompt = prompt) (hm : rec.model = model_name)
    (hsd : hasSubstr rec.gcsuri "stablediffusion" = true) :
    normalizeLoc rec.gcsuri
      = (if pyStartsWith rec.gcsuri "20250328_" then splitextStem rec.gcsuri
         else rec.gcsuri)
    ∧ normalizeLoc rec.gcsuri ∈ matchingDocs records model_name prompt := by
  constructor
  · simp [normalizeLoc, hsd]
  · exact List.mem_map_of_mem _ (List.mem_filter.mpr ⟨hmem, by simp [hp, hm]⟩)

/-- C1 witness: a legacy record not starting with the date marker is returned
verbatim, extension intact. -/
theorem C1_witness :
    hasSubstr "gs://bucket/stablediffusion/old.jpg" "stablediffusion" = true
    ∧ normalizeLoc "gs://bucket/stablediffusion/old.jpg"
        = (if pyStartsWith "gs://bucket/stablediffusion/old.jpg" "20250328_" then
             splitextStem "gs://bucket/stablediffusion/old.jpg"
           else "gs://bucket/stablediffusion/old.jpg")
    ∧ normalizeLoc "gs://bucket/stablediffusion/old.jpg"
        ∈ matchingDocs [⟨"gs://bucket/stablediffusion/old.jpg", "p", "m"⟩] "m" "p"
    ∧ normalizeLoc "gs://bucket/stablediffusion/old.jpg"
        = "gs://bucket/stablediffusion/old.jpg" := by
  have main := C1_legacy_rule
    [⟨"gs://bucket/stablediffusion/old.jpg", "p", "m"⟩] "m" "p"
    ⟨"gs://bucket/stablediffusion/old.jpg", "p", "m"⟩
    (by decide) rfl rfl (by decide)
  exact ⟨by decide, main.1, main.2, by decide⟩

/-- C2: with an empty matching set, study_fetch fails with NoMatchError and
never returns any result list. -/
theorem C2_empty_match_fails (records : List ProvenanceRecord)
    (model_name prompt : String) (r : Nat)
    (h : matchingDocs records model_name prompt = []) :
    study_fetch records model_name prompt r = .error FetchError.NoMatchError
    ∧ ∀ out : List String, study_fetch records model_name prompt r ≠ .ok out := by
  have h1 : study_fetch records model_name prompt r = .error FetchError.NoMatchError := by
    unfold study_fetch randomSampleOne
    rw [h]
    rfl
  refine ⟨h1, fun out hout => ?_⟩
  rw [h1] at hout
  exact Except.noConfusion hout

/-- C2 witness: a store whose single record matches neither filter yields
NoMatchError. -/
theorem C2_witness :
    matchingDocs [⟨"gs://b/a.png", "p1", "m1"⟩] "m2" "p2" = []
    ∧ study_fetch [⟨"gs://b/a.png", "p1", "m1"⟩] "m2" "p2" 5
        = .error FetchError.NoMatchError :=
  ⟨rfl, (C2_empty_match_fails [⟨"gs://b/a.png", "p1", "m1"⟩] "m2" "p2" 5 rfl).1⟩

/-- C5: the selection of study_fetch is uniform over the full normalized
matching set: for every index i of that set, exactly one of the n
equally-likely randomness draws selects index i (so each record has
probability 1/n), and the draw i indeed returns the i-th normalized
location — the choice is not "first match". -/
theorem C5_uniform_selection (records : List ProvenanceRecord)
    (model_name prompt : String) (i : Nat)
    (h : i < (matchingDocs records model_name prompt).length) :
    ((Finset.range (matchingDocs records model_name prompt).length).filter
        (fun r => r % (matchingDocs records model_name prompt).length = i)).card = 1
    ∧ study_fetch records model_name prompt i
        = .ok [(matchingDocs records model_name prompt).get ⟨i, h⟩] := by
  constructor
  · have hset : (Finset.range (matchingDocs records model_name prompt).length).filter
        (fun r => r % (matchingDocs records model_name prompt).length = i) = {i} := by
      ext r
      simp only [Finset.mem_filter, Finset.mem_range, Finset.mem_singleton]
      constructor
      · rintro ⟨hr, hmod⟩
        rwa [Nat.mod_eq_of_lt hr] at hmod
      · rintro rfl
        exact ⟨h, Nat.mod_eq_of_lt h⟩
    rw [hset, Finset.card_singleton]
  · unfold study_fetch randomSampleOne
    have hne : ¬ (matchingDocs records model_name prompt).length = 0 := by omega
    rw [dif_neg hne]
    exact congrArg
      (fun j : Fin (matchingDocs records model_name prompt).length =>
        (Except.ok [(matchingDocs records model_name prompt).get j] :
          Except FetchError (List String)))
      (Fin.ext (Nat.mod_eq_of_lt h))

/-- C5 witness: with two matching records, the second is selected by draw 1,
with selection probability 1/2. -/
theorem C5_witness :
    1 < (matchingDocs twoRecs "m" "p").length
    ∧ ((Finset.range (matchingDocs twoRecs "m" "p").length).filter
        (fun r => r % (matchingDocs twoRecs "m" "p").length = 1)).card = 1
    ∧ study_fetch twoRecs "m" "p" 1 = .ok ["gs://b/b"] := by
  have h : 1 < (matchingDocs twoRecs "m" "p").length := by decide
  have main := C5_uniform_selection twoRecs "m" "p" 1 h
  refine ⟨h, main.1, ?_⟩
  rw [main.2]
  rfl

/-- C3: a metadata-write failure is caught inside the loop, so the returned
artifact list of either driver is the same as with an environment in which
every metadata write succeeds (same object store, same uuid supply). -/
theorem C3_metadata_failure_isolated (env env' : FluxEnv) (ienv ienv' : ImagenEnv)
    (model_name prompt aspectRatio : String) (predictions : List String)
    (images : List ImagenImage)
    (hstore : env.store = env'.store) (huuid : env.uuid = env'.uuid) :
    (images_from_flux env model_name prompt aspectRatio predictions).1
      = (images_from_flux env' model_name prompt aspectRatio predictions).1
    ∧ (images_from_imagen ienv model_name prompt aspectRatio images).1
      = (images_from_imagen ienv' model_name prompt aspectRatio images).1 := by
  constructor
  · exact fluxLoop_fst_indep env env' model_name prompt hstore huuid 0 predictions
  · rw [images_from_imagen, images_from_imagen, imagenLoop_fst, imagenLoop_fst]

/-- C3 witness: an environment whose metadata writes all raise yields the very
same artifact lists as one whose writes all succeed, and the list still
carries the location whose provenance write failed. -/
theorem C3_witness :
    fluxEnvOk.store = fluxEnvFail.store
    ∧ fluxEnvOk.uuid = fluxEnvFail.uuid
    ∧ (images_from_flux fluxEnvOk "m" "p" "1:1" ["payload"]).1
        = (images_from_flux fluxEnvFail "m" "p" "1:1" ["payload"]).1
    ∧ (images_from_imagen imagenEnvOk "m" "p" "1:1" [⟨"gs://b/i.png", "x"⟩]).1
        = (images_from_imagen imagenEnvFail "m" "p" "1:1" [⟨"gs://b/i.png", "x"⟩]).1
    ∧ (images_from_flux fluxEnvFail "m" "p" "1:1" ["payload"]).1
        = ["gs://bucket/flux1/uuid0.png"] := by
  have main := C3_metadata_failure_isolated fluxEnvOk fluxEnvFail imagenEnvOk imagenEnvFail
    "m" "p" "1:1" ["payload"] [⟨"gs://b/i.png", "x"⟩] rfl rfl
  exact ⟨rfl, rfl, main.1, main.2, rfl⟩

/-- C6: dispatch selects a driver by exact identifier match against the
registry; an identifier registered under no entry fails with
UnknownModelError. -/
theorem C6_unknown_model (registry : List (String × DriverKind)) (model_name : String)
    (h : ∀ p ∈ registry, p.1 ≠ model_name) :
    dispatch registry model_name = .error DispatchError.UnknownModelError := by
  unfold dispatch
  have hnone : registry.find? (fun p => p.1 == model_name) = none := by
    apply List.find?_eq_none.mpr
    intro p hp
    simp only [beq_iff_eq]
    exact h p hp
  rw [hnone]

/-- C6 witness: a two-entry registry rejects an unregistered identifier. -/
theorem C6_witness :
    (∀ p ∈ [("flux1", DriverKind.flux), ("imagen-3", DriverKind.imagen)],
        p.1 ≠ "unknown-model")
    ∧ dispatch [("flux1", DriverKind.flux), ("imagen-3", DriverKind.imagen)]
        "unknown-model" = .error DispatchError.UnknownModelError :=
  ⟨by decide,
   C6_unknown_model [("flux1", DriverKind.flux), ("imagen-3", DriverKind.imagen)]
     "unknown-model" (by decide)⟩

/-- C7: every filename the flux driver passes to the object store is a value
of the uuid supply followed by the fixed ".png" extension, and two generate
calls whose uuid supplies never coincide (uuid4 freshness) produce
non-colliding filenames. -/
theorem C7_fresh_filenames (env1 env2 : FluxEnv)
    (m1 p1 a1 m2 p2 a2 : String) (preds1 preds2 : List String)
    (hfresh : ∀ i j, env1.uuid i ≠ env2.uuid j) :
    (∀ w ∈ (images_from_flux env1 m1 p1 a1 preds1).2.1,
        ∃ i, w.filename = env1.uuid i ++ ".png")
    ∧ (∀ w1 ∈ (images_from_flux env1 m1 p1 a1 preds1).2.1,
        ∀ w2 ∈ (images_from_flux env2 m2 p2 a2 preds2).2.1,
        w1.filename ≠ w2.filename) := by
  constructor
  · intro w hw
    rcases fluxLoop_filename_mem env1 m1 p1 0 preds1 w hw with ⟨i, _, _, hfn⟩
    exact ⟨i, hfn⟩
  · intro w1 hw1 w2 hw2 heq
    rcases fluxLoop_filename_mem env1 m1 p1 0 preds1 w1 hw1 with ⟨i, _, _, hfn1⟩
    rcases fluxLoop_filename_mem env2 m2 p2 0 preds2 w2 hw2 with ⟨j, _, _, hfn2⟩
    rw [hfn1, hfn2] at heq
    exact hfresh i j (append_png_inj _ _ heq)

/-- C7 witness: two calls under disjoint uuid supplies store under "a.png"
and "b.png", which differ. -/
theorem C7_witness :
    (⟨"flux1", "a.png", "image/png", "d", true⟩ : StoreWrite).filename
      ≠ (⟨"flux1", "b.png", "image/png", "d", true⟩ : StoreWrite).filename :=
  (C7_fresh_filenames fluxEnvA fluxEnvB "m" "p" "1:1" "m" "p" "1:1" ["d"] ["d"]
      (fun i j => by show ("a" : String) ≠ "b"; decide)).2
    ⟨"flux1", "a.png", "image/png", "d", true⟩ (by decide)
    ⟨"flux1", "b.png", "image/png", "d", true⟩ (by decide)

/-- C8: the flux driver discards the aspect-ratio argument: the provider
request it builds and its whole result are identical for any two aspect
ratios, and no error arises from the aspect ratio. -/
theorem C8_aspect_ignored (env : FluxEnv) (model_name prompt a1 a2 : String)
    (predictions : List String) :
    flux_request model_name prompt a1 = flux_request model_name prompt a2
    ∧ images_from_flux env model_name prompt a1 predictions
        = images_from_flux env model_name prompt a2 predictions :=
  ⟨rfl, rfl⟩

/-- C9: with an empty provider response, both drivers return an empty
artifact list without error, and issue no object-store write and no
provenance write. -/
theorem C9_zero_images (env : FluxEnv) (ienv : ImagenEnv)
    (model_name prompt aspectRatio : String) :
    images_from_flux env model_name prompt aspectRatio [] = ([], [], [])
    ∧ images_from_imagen ienv model_name prompt aspectRatio [] = ([], []) :=
  ⟨rfl, rfl⟩

/-- C10: the imagen driver returns exactly the provider-issued durable-store
reference of each response image, unchanged and in provider order (and its
embedding issues no object-store write at all). -/
theorem C10_imagen_uris_verbatim (env : ImagenEnv)
    (model_name prompt aspectRatio : String) (images : List ImagenImage) :
    (images_from_imagen env model_name prompt aspectRatio images).1
      = images.map (fun img => img.gcs_uri) :=
  imagenLoop_fst env model_name prompt images

end Claims

end MesopArena
